import Mathlib

/-!
Verification of the keystroke-auth repository core: the scan-code
translator, key-event builder, layout/process resolvers
(src/data_collection/keyboard/key_controller.py), the Key record
(src/models/key_model.py) and the identity snapshot (src/system_info.py).

The OS surface (WinAPI calls made through ctypes, registry reads, file
reads, subprocess output, uid queries) is modelled by an `Env` record
holding the result each OS call would return at that moment; every
embedded function is a pure function of `Env` and its arguments, and
fallible Python code is embedded as `Except PyError`.
-/

namespace KeystrokeAuth

/-- Python `str.strip` whitespace set (ASCII part: space, tab, newline,
carriage return, vertical tab, form feed). -/
def isPySpace (c : Char) : Bool :=
  c == ' ' || c == '\t' || c == '\n' || c == '\r' || c == '\x0b' || c == '\x0c'

/-- Python `str.strip()`: drop leading and trailing whitespace. -/
def pyStrip (s : String) : String :=
  String.mk (((s.data.dropWhile isPySpace).reverse.dropWhile isPySpace).reverse)

/-- Python `s.startswith(p)`. -/
def pyStartsWith (s p : String) : Bool :=
  List.isPrefixOf p.data s.data

/-- Split a character list at every character satisfying `p`
(separators are dropped, empty runs are kept). -/
def splitOnPred (p : Char → Bool) (l : List Char) : List (List Char) :=
  l.foldr
    (fun a acc =>
      match acc with
      | [] => [[a]]
      | cur :: rest => if p a then [] :: cur :: rest else (a :: cur) :: rest)
    [[]]

/-- Python `str.splitlines()` (modelled as splitting on a line feed; the
carriage return of a CRLF pair is removed by the `strip` that every use
site applies, or is irrelevant to the use site). -/
def pySplitlines (s : String) : List String :=
  (splitOnPred (fun c => c == '\n') s.data).map String.mk

/-- Python `str.split()` with no argument: split on whitespace runs and
drop empty pieces. -/
def pySplitWhitespace (s : String) : List String :=
  ((splitOnPred isPySpace s.data).map String.mk).filter (fun t => t ≠ "")

/-- Python `sub in s` substring test. -/
def hasSubstr : List Char → List Char → Bool
  | [], sub => sub.isEmpty
  | l@(_ :: rest), sub => List.isPrefixOf sub l || hasSubstr rest sub

/-- `os.path.basename` for the Windows paths produced by
`QueryFullProcessImageNameW`: the component after the last path
separator (slash or backslash). -/
def basename (s : String) : String :=
  String.mk ((s.data.reverse.takeWhile (fun c => !(c == '/' || c == Char.ofNat 92))).reverse)

/-- The Python format `f"LANGID_{lang_id:#06x}"` for `lang_id < 0x10000`:
four lowercase hex digits, zero padded. -/
def hex4 (n : Nat) : String :=
  let ds := Nat.toDigits 16 n
  String.mk (List.replicate (4 - ds.length) '0' ++ ds)

/-- `unicodedata.category(c) == "Cc"`: the Unicode control characters
U+0000..U+001F and U+007F..U+009F. -/
def isCc (c : Char) : Bool :=
  c.toNat < 0x20 || (0x7f ≤ c.toNat && c.toNat ≤ 0x9f)

/-- The test `len(s) == 1 and unicodedata.category(s) == "Cc"` from
`build_key`. -/
def isSingleCc (s : String) : Bool :=
  match s.data with
  | [c] => isCc c
  | _ => false

/-- The Python exceptions the embedded code can raise or absorb. -/
inductive PyError where
  | valueError (msg : String)
  | typeError
  | oserror
  | calledProcessError
  deriving DecidableEq, Repr

/-- The `EventType = Literal["DOWN", "UP"]` alias of
src/models/key_model.py; also the event kind of the raw hook event
(spec input boundary: "an event kind (DOWN/UP)"). -/
inductive EventType where
  | DOWN
  | UP
  deriving DecidableEq, Repr

/-- A dynamically typed Python value, as passed positionally to the
`Key` dataclass constructor (dataclasses do not check annotations at
run time, only arity). -/
inductive PyVal where
  | str (s : String)
  | int (n : Int)
  | ev (e : EventType)
  deriving DecidableEq, Repr

/-- The frozen `Key` dataclass of src/models/key_model.py: seven fields,
all required, no defaults. Fields hold `PyVal` because Python does not
enforce the annotations at construction time. -/
structure Key where
  session_id : PyVal
  key_name : PyVal
  event : PyVal
  timestamp : PyVal
  scan_code : PyVal
  keyboard_layout : PyVal
  active_window : PyVal
  deriving DecidableEq, Repr

/-- A positional call `Key(*args)`: the generated dataclass `__init__`
takes exactly seven positional arguments and raises `TypeError` for any
other count. -/
def callKey : List PyVal → Except PyError Key
  | [a, b, c, d, e, f, g] => Except.ok ⟨a, b, c, d, e, f, g⟩
  | _ => Except.error PyError.typeError

/-- The raw hook event handed to `build_key` (exposes `.name`,
`.event_type`, `.scan_code`). -/
structure RawEvent where
  name : String
  event_type : EventType
  scan_code : Int
  deriving DecidableEq, Repr

/-- One snapshot of every OS-call result the embedded functions
consult. Each field is the value the corresponding OS facility returns
in this environment. -/
structure Env where
  /-- `sys.platform`. -/
  platform : String
  /-- `winreg` read of `HKLM\SOFTWARE\Microsoft\Cryptography\MachineGuid`. -/
  machineGuid : Except PyError String
  /-- contents of `/etc/machine-id`. -/
  etcMachineId : Except PyError String
  /-- contents of `/var/lib/dbus/machine-id`. -/
  dbusMachineId : Except PyError String
  /-- output of `ioreg -rd1 -c IOPlatformExpertDevice`. -/
  ioregOutput : Except PyError String
  /-- `uuid.getnode()`; cached by the `uuid` module for the process
  lifetime, hence a fixed value of the environment. -/
  getnode : Nat
  /-- output of `whoami /user` via `subprocess.check_output`. -/
  whoamiOutput : Except PyError String
  /-- `os.getuid()`. -/
  getuid : Except PyError Nat
  /-- `socket.gethostname()`. -/
  hostname : String
  /-- `getpass.getuser()`. -/
  username : String
  /-- `GetForegroundWindow()`; `0` means no foreground window. -/
  foregroundWindow : Nat
  /-- `GetWindowThreadProcessId` thread-id result. -/
  windowThreadId : Nat
  /-- `GetWindowThreadProcessId` process-id out parameter. -/
  pid : Nat
  /-- `GetKeyboardLayout(tid)` with restype `c_void_p`/`HKL`: `none` is
  the NULL handle (ctypes converts it to Python `None`). -/
  keyboardLayout : Option Nat
  /-- `LCIDToLocaleName` outcome: `some name` when it succeeds, `none`
  when it returns 0. -/
  lcidLocaleName : Option String
  /-- `OpenProcess` result: `none` is the NULL handle (failure). -/
  openProcess : Option Nat
  /-- whether `QueryFullProcessImageNameW` succeeds. -/
  queryImageOk : Bool
  /-- the image path `QueryFullProcessImageNameW` writes on success. -/
  imagePath : String
  /-- `MapVirtualKeyExW(scan_code, MAPVK_VSC_TO_VK_EX, hkl)` result. -/
  mapVkEx : Nat
  /-- `MapVirtualKeyW(scan_code, MAPVK_VSC_TO_VK)` result. -/
  mapVk : Nat
  /-- whether `GetKeyboardState` succeeds. -/
  keyboardStateOk : Bool
  /-- `ToUnicodeEx` return value. -/
  toUnicodeRes : Int
  /-- the UTF-16 units `ToUnicodeEx` composes (before buffer clipping). -/
  composition : List Char
  /-- `time.time_ns()`. -/
  timeNs : Int

/-- `KeyController.get_language`: resolve the foreground thread's
keyboard layout and turn its LANGID into a locale name. `hkl & 0xFFFF`
is a `TypeError` when the layout handle is NULL (ctypes yields `None`);
otherwise `LCIDToLocaleName` success returns the locale and failure
returns the `LANGID_0x....` diagnostic. -/
def get_language (env : Env) : Except PyError String :=
  match env.keyboardLayout with
  | none => Except.error PyError.typeError
  | some hkl =>
    let lang_id := hkl % 65536
    match env.lcidLocaleName with
    | some loc => Except.ok loc
    | none => Except.ok ("LANGID_0x" ++ hex4 lang_id)

/-- Result of `KeyController.get_process_name` together with a ledger of
the process handles the call opened and closed (to state the
release-on-every-path property). -/
structure ProcResult where
  name : String
  opened : List Nat
  closed : List Nat
  deriving DecidableEq, Repr

/-- `KeyController.get_process_name`: foreground window → pid →
`OpenProcess` → `QueryFullProcessImageNameW` → `basename`, with
`"unknown.exe"` on every failure path and `CloseHandle` in a `finally`. -/
def get_process_name (env : Env) : ProcResult :=
  if env.foregroundWindow = 0 then ⟨"unknown.exe", [], []⟩
  else
    match env.openProcess with
    | none => ⟨"unknown.exe", [], []⟩
    | some hproc =>
      let result := if env.queryImageOk then basename env.imagePath else "unknown.exe"
      ⟨result, [hproc], [hproc]⟩

/-- The two-step virtual-key resolution of `map_scancode_to_char`:
`vk = MapVirtualKeyExW(...) or 0`, retried as `MapVirtualKeyW(...) or 0`
when the first result is zero. -/
def resolveVk (env : Env) : Nat :=
  if env.mapVkEx ≠ 0 then env.mapVkEx else env.mapVk

/-- `buf.value` after `ToUnicodeEx` wrote into
`ctypes.create_unicode_buffer(8)`: at most 8 units are written, and
`.value` reads up to the first NUL or the end of the buffer. -/
def bufValue (env : Env) : String :=
  String.mk ((env.composition.take 8).takeWhile (fun c => c != '\x00'))

/-- `KeyController.map_scancode_to_char` (the ScanCodeTranslator):
zero scan code and missing foreground window raise `ValueError`; an
unresolvable virtual key returns `""`; an unreadable keyboard state
raises `ValueError`; a positive `ToUnicodeEx` result returns the buffer
contents and a zero or negative result returns `""`. -/
def map_scancode_to_char (env : Env) (scan_code : Int) : Except PyError String :=
  if scan_code = 0 then Except.error (PyError.valueError "Scan code needed")
  else if env.foregroundWindow = 0 then
    Except.error (PyError.valueError "Unknown or no foreground window")
  else if resolveVk env = 0 then Except.ok ""
  else if env.keyboardStateOk = false then
    Except.error (PyError.valueError "Unknown keyboard state")
  else if env.toUnicodeRes > 0 then Except.ok (bufValue env)
  else Except.ok ""

/-- `KeyController.build_key` (the KeyEventBuilder): translate the scan
code, strip it, fall back to the symbolic name when the result is empty
or a single control character, then call the `Key` constructor with the
six assembled positional arguments (the source never passes a
`session_id`). -/
def build_key (env : Env) (key : RawEvent) : Except PyError Key := do
  let scan_code := key.scan_code
  let mapped ← map_scancode_to_char env scan_code
  let stripped := pyStrip mapped
  let key_name := if stripped = "" ∨ isSingleCc stripped then key.name else stripped
  let event := key.event_type
  let timestamp := env.timeNs
  let keyboard_layout ← get_language env
  let active_window := (get_process_name env).name
  callKey [PyVal.str key_name, PyVal.ev event, PyVal.int timestamp,
    PyVal.int scan_code, PyVal.str keyboard_layout, PyVal.str active_window]

/-- The universal fallback of `SystemInfo._get_device_id`:
`"fb_mac:" + str(uuid.getnode())`. -/
def deviceFallback (env : Env) : String :=
  "fb_mac:" ++ toString env.getnode

/-- The key the macOS branch of `_get_device_id` scans `ioreg` output
for. -/
def ioPlatformKey : String := "IOPlatformUUID"

/-- The macOS branch body of `_get_device_id` once `ioreg` produced
`out`: scan the lines for the first one containing `IOPlatformUUID` and
return `"mac:" + line.split(Char.ofNat 34)[-2]`; a line with fewer than
two quote-split parts raises `IndexError` inside the `try`, which the
blanket `except` absorbs into the fallback, as does a missing line. -/
def darwinDeviceId (env : Env) (out : String) : String :=
  match (pySplitlines out).find? (fun line => hasSubstr line.data ioPlatformKey.data) with
  | none => deviceFallback env
  | some line =>
    let parts := splitOnPred (fun c => c == Char.ofNat 34) line.data
    if h : 2 ≤ parts.length then
      "mac:" ++ String.mk (parts.get ⟨parts.length - 2, by omega⟩)
    else deviceFallback env

/-- `SystemInfo._get_device_id`: per-platform identifier with local
failure absorption and the MAC-address fallback. -/
def _get_device_id (env : Env) : String :=
  if pyStartsWith env.platform "win" then
    match env.machineGuid with
    | Except.ok v => "win:" ++ v
    | Except.error _ => deviceFallback env
  else if pyStartsWith env.platform "linux" then
    match env.etcMachineId with
    | Except.ok c => "linux:" ++ pyStrip c
    | Except.error _ =>
      match env.dbusMachineId with
      | Except.ok c => "linux:" ++ pyStrip c
      | Except.error _ => deviceFallback env
  else if env.platform = "darwin" then
    match env.ioregOutput with
    | Except.error _ => deviceFallback env
    | Except.ok out => darwinDeviceId env out
  else deviceFallback env

/-- `SystemInfo._get_account_id`: on Windows, the `whoami /user` output
is scanned line-by-line for a stripped line starting with `"S-1-"`,
then token-by-token, with sentinel `"sid:unknown"`; the
`subprocess.check_output` call itself is not guarded, so its failure
propagates. On every other platform, `os.getuid()` is guarded and
failure yields `"uid:unknown"`. -/
def _get_account_id (env : Env) : Except PyError String :=
  if pyStartsWith env.platform "win" then
    match env.whoamiOutput with
    | Except.error e => Except.error e
    | Except.ok out =>
      match ((pySplitlines out).map pyStrip).find? (fun l => pyStartsWith l "S-1-") with
      | some line => Except.ok ("sid:" ++ line)
      | none =>
        let parts := (pySplitWhitespace out).filter (fun p => pyStartsWith p "S-1-")
        match parts.getLast? with
        | some p => Except.ok ("sid:" ++ p)
        | none => Except.ok "sid:unknown"
  else
    match env.getuid with
    | Except.ok n => Except.ok ("uid:" ++ toString n)
    | Except.error _ => Except.ok "uid:unknown"

/-- The `SystemInfo` record (the IdentitySnapshot): private fields set
once in `__init__`, exposed through read-only properties. -/
structure SystemInfo where
  device_id : String
  account_id : String
  device_name : String
  username : String
  platform : String
  deriving DecidableEq, Repr

/-- `SystemInfo.__init__`: resolve device id, account id, hostname,
username and platform once at construction. `_get_account_id` may
propagate an exception (Windows branch), in which case no snapshot is
produced. -/
def mkSystemInfo (env : Env) : Except PyError SystemInfo := do
  let did := _get_device_id env
  let aid ← _get_account_id env
  return ⟨did, aid, env.hostname, env.username, env.platform⟩

/-- The four source tags of `_get_device_id`. -/
def devicePrefixes : List String := ["win:", "linux:", "mac:", "fb_mac:"]

/-- A benign environment: focused window, readable keyboard state, a
layout that maps scan code 30 to virtual key 65 ('A') and composes the
single character 'a'. -/
def envGood : Env where
  platform := "win32"
  machineGuid := Except.ok "f305b5e2-1234-4c87-9a9b-0c0d0e0f1011"
  etcMachineId := Except.error PyError.oserror
  dbusMachineId := Except.error PyError.oserror
  ioregOutput := Except.error PyError.oserror
  getnode := 123456789
  whoamiOutput := Except.ok "USER INFORMATION\n----------------\ndesk9 S-1-5-21-1-2-3-1001"
  getuid := Except.error PyError.oserror
  hostname := "desk9"
  username := "user9"
  foregroundWindow := 42
  windowThreadId := 7
  pid := 100
  keyboardLayout := some 67699721
  lcidLocaleName := some "en-US"
  openProcess := some 55
  queryImageOk := true
  imagePath := "C:\\Windows\\System32\\notepad.exe"
  mapVkEx := 65
  mapVk := 65
  keyboardStateOk := true
  toUnicodeRes := 1
  composition := ['a']
  timeNs := 1700000000000000000

/-- The raw hook event of the spec's end-to-end example:
name "a", DOWN, scan code 30. -/
def rawA : RawEvent where
  name := "a"
  event_type := EventType.DOWN
  scan_code := 30

/-- `envGood` with no foreground window. -/
def envNoFocus : Env := { envGood with foregroundWindow := 0 }

/-- No foreground window and a NULL keyboard-layout handle (a thread
without a layout): the simulated no-focused-window condition of the
spec, on a layoutless thread. -/
def envNullLayout : Env := { envGood with foregroundWindow := 0, keyboardLayout := none }

/-- A Windows environment where the `whoami /user` invocation itself
fails. -/
def envWhoamiFail : Env := { envGood with whoamiOutput := Except.error PyError.calledProcessError }

/-- A POSIX (Linux) environment with a readable machine id and a
resolvable uid. -/
def envPosix : Env :=
  { envGood with
      platform := "linux"
      etcMachineId := Except.ok "abcd1234efgh5678\n"
      getuid := Except.ok 1000 }

/-- The snapshot `mkSystemInfo` produces in `envPosix`. -/
def snapPosix : SystemInfo where
  device_id := "linux:abcd1234efgh5678"
  account_id := "uid:1000"
  device_name := "desk9"
  username := "user9"
  platform := "linux"

theorem length_takeWhile_le (p : Char → Bool) (l : List Char) :
    (l.takeWhile p).length ≤ l.length := by
  induction l with
  | nil => simp
  | cons a as ih =>
    cases hp : p a
    · simp [List.takeWhile, hp]
    · simpa [List.takeWhile, hp] using Nat.succ_le_succ ih

theorem isPrefixOf_append (l t : List Char) : List.isPrefixOf l (l ++ t) = true := by
  induction l with
  | nil => simp
  | cons a as ih => simp [List.isPrefixOf_cons₂, ih]

theorem isPrefixOf_cons_ne {a b : Char} (as bs : List Char) (h : a ≠ b) :
    List.isPrefixOf (a :: as) (b :: bs) = false := by
  simp [List.isPrefixOf_cons₂, h]

theorem device_tag_win (v : String) :
    ("win:" ++ v) ≠ "" ∧
      devicePrefixes.countP (fun p => pyStartsWith ("win:" ++ v) p) = 1 := by
  have hd : ("win:" ++ v).data = 'w' :: 'i' :: 'n' :: ':' :: v.data := by
    cases v
    rfl
  have h1 : pyStartsWith ("win:" ++ v) "win:" = true := by
    unfold pyStartsWith
    rw [hd]
    exact isPrefixOf_append ['w', 'i', 'n', ':'] v.data
  have h2 : pyStartsWith ("win:" ++ v) "linux:" = false := by
    unfold pyStartsWith
    rw [hd]
    exact isPrefixOf_cons_ne _ _ (by decide)
  have h3 : pyStartsWith ("win:" ++ v) "mac:" = false := by
    unfold pyStartsWith
    rw [hd]
    exact isPrefixOf_cons_ne _ _ (by decide)
  have h4 : pyStartsWith ("win:" ++ v) "fb_mac:" = false := by
    unfold pyStartsWith
    rw [hd]
    exact isPrefixOf_cons_ne _ _ (by decide)
  refine ⟨?_, ?_⟩
  · intro hc
    have := congrArg String.data hc
    rw [hd] at this
    exact List.noConfusion this
  · simp [devicePrefixes, List.countP_cons, h1, h2, h3, h4]

theorem device_tag_linux (v : String) :
    ("linux:" ++ v) ≠ "" ∧
      devicePrefixes.countP (fun p => pyStartsWith ("linux:" ++ v) p) = 1 := by
  have hd : ("linux:" ++ v).data = 'l' :: 'i' :: 'n' :: 'u' :: 'x' :: ':' :: v.data := by
    cases v
    rfl
  have h1 : pyStartsWith ("linux:" ++ v) "linux:" = true := by
    unfold pyStartsWith
    rw [hd]
    exact isPrefixOf_append ['l', 'i', 'n', 'u', 'x', ':'] v.data
  have h2 : pyStartsWith ("linux:" ++ v) "win:" = false := by
    unfold pyStartsWith
    rw [hd]
    exact isPrefixOf_cons_ne _ _ (by decide)
  have h3 : pyStartsWith ("linux:" ++ v) "mac:" = false := by
    unfold pyStartsWith
    rw [hd]
    exact isPrefixOf_cons_ne _ _ (by decide)
  have h4 : pyStartsWith ("linux:" ++ v) "fb_mac:" = false := by
    unfold pyStartsWith
    rw [hd]
    exact isPrefixOf_cons_ne _ _ (by decide)
  refine ⟨?_, ?_⟩
  · intro hc
    have := congrArg String.data hc
    rw [hd] at this
    exact List.noConfusion this
  · simp [devicePrefixes, List.countP_cons, h1, h2, h3, h4]

theorem device_tag_mac (v : String) :
    ("mac:" ++ v) ≠ "" ∧
      devicePrefixes.countP (fun p => pyStartsWith ("mac:" ++ v) p) = 1 := by
  have hd : ("mac:" ++ v).data = 'm' :: 'a' :: 'c' :: ':' :: v.data := by
    cases v
    rfl
  have h1 : pyStartsWith ("mac:" ++ v) "mac:" = true := by
    unfold pyStartsWith
    rw [hd]
    exact isPrefixOf_append ['m', 'a', 'c', ':'] v.data
  have h2 : pyStartsWith ("mac:" ++ v) "win:" = false := by
    unfold pyStartsWith
    rw [hd]
    exact isPrefixOf_cons_ne _ _ (by decide)
  have h3 : pyStartsWith ("mac:" ++ v) "linux:" = false := by
    unfold pyStartsWith
    rw [hd]
    exact isPrefixOf_cons_ne _ _ (by decide)
  have h4 : pyStartsWith ("mac:" ++ v) "fb_mac:" = false := by
    unfold pyStartsWith
    rw [hd]
    exact isPrefixOf_cons_ne _ _ (by decide)
  refine ⟨?_, ?_⟩
  · intro hc
    have := congrArg String.data hc
    rw [hd] at this
    exact List.noConfusion this
  · simp [devicePrefixes, List.countP_cons, h1, h2, h3, h4]

theorem device_tag_fbmac (v : String) :
    ("fb_mac:" ++ v) ≠ "" ∧
      devicePrefixes.countP (fun p => pyStartsWith ("fb_mac:" ++ v) p) = 1 := by
  have hd : ("fb_mac:" ++ v).data = 'f' :: 'b' :: '_' :: 'm' :: 'a' :: 'c' :: ':' :: v.data := by
    cases v
    rfl
  have h1 : pyStartsWith ("fb_mac:" ++ v) "fb_mac:" = true := by
    unfold pyStartsWith
    rw [hd]
    exact isPrefixOf_append ['f', 'b', '_', 'm', 'a', 'c', ':'] v.data
  have h2 : pyStartsWith ("fb_mac:" ++ v) "win:" = false := by
    unfold pyStartsWith
    rw [hd]
    exact isPrefixOf_cons_ne _ _ (by decide)
  have h3 : pyStartsWith ("fb_mac:" ++ v) "linux:" = false := by
    unfold pyStartsWith
    rw [hd]
    exact isPrefixOf_cons_ne _ _ (by decide)
  have h4 : pyStartsWith ("fb_mac:" ++ v) "mac:" = false := by
    unfold pyStartsWith
    rw [hd]
    exact isPrefixOf_cons_ne _ _ (by decide)
  refine ⟨?_, ?_⟩
  · intro hc
    have := congrArg String.data hc
    rw [hd] at this
    exact List.noConfusion this
  · simp [devicePrefixes, List.countP_cons, h1, h2, h3, h4]

/-- C1: `build_key` is claimed to return an immutable `Key` with
non-empty `key_name` and a DOWN/UP event for every well-formed raw
event. On the code it cannot: the source passes six positional
arguments to the seven-field `Key` dataclass (no `session_id`), so the
constructor call raises `TypeError` on every call — here evaluated at
the spec's own end-to-end example event in a benign environment. -/
theorem build_key_constructor_arity_bug :
    build_key envGood rawA = Except.error PyError.typeError := rfl

/-- C2 counterexample: with a non-zero scan code and no foreground
window, the translator aborts with the `ValueError` for a missing
foreground window — a third fatal condition beyond the two the claim
allows, and precisely an abort "due to missing window focus". -/
theorem translate_aborts_on_no_focus :
    map_scancode_to_char envNoFocus 30 =
      Except.error (PyError.valueError "Unknown or no foreground window") := rfl

/-- C2 (amended): for every non-zero scan code the translator either
returns a string or raises one of exactly two further fatal conditions:
missing foreground window, or unreadable modifier-state snapshot; it
never aborts due to unresolvable layout or unmappable keys. -/
theorem translate_failure_classification (env : Env) (sc : Int) (hsc : sc ≠ 0) :
    (∃ s, map_scancode_to_char env sc = Except.ok s) ∨
      map_scancode_to_char env sc =
        Except.error (PyError.valueError "Unknown or no foreground window") ∨
      map_scancode_to_char env sc =
        Except.error (PyError.valueError "Unknown keyboard state") := by
  unfold map_scancode_to_char
  rw [if_neg hsc]
  by_cases hfw : env.foregroundWindow = 0
  · rw [if_pos hfw]
    exact Or.inr (Or.inl rfl)
  · rw [if_neg hfw]
    by_cases hvk : resolveVk env = 0
    · rw [if_pos hvk]
      exact Or.inl ⟨"", rfl⟩
    · rw [if_neg hvk]
      by_cases hks : env.keyboardStateOk = false
      · rw [if_pos hks]
        exact Or.inr (Or.inr rfl)
      · rw [if_neg hks]
        by_cases hres : env.toUnicodeRes > 0
        · rw [if_pos hres]
          exact Or.inl ⟨bufValue env, rfl⟩
        · rw [if_neg hres]
          exact Or.inl ⟨"", rfl⟩

/-- C2 witness: the classification applied at scan code 30 in the
benign environment. -/
theorem translate_failure_classification_witness :
    (∃ s, map_scancode_to_char envGood 30 = Except.ok s) ∨
      map_scancode_to_char envGood 30 =
        Except.error (PyError.valueError "Unknown or no foreground window") ∨
      map_scancode_to_char envGood 30 =
        Except.error (PyError.valueError "Unknown keyboard state") :=
  translate_failure_classification envGood 30 (by decide)

/-- C3 counterexample: on Windows the `subprocess.check_output` call to
`whoami /user` is not guarded, so when the user-identity query utility
fails, `_get_account_id` propagates the exception instead of returning
the sentinel `"sid:unknown"` — refuting "never raises". -/
theorem account_id_propagates_whoami_failure :
    _get_account_id envWhoamiFail = Except.error PyError.calledProcessError := rfl

/-- C3 (amended): on POSIX, `_get_account_id` never raises and returns
`"uid:"` followed by a non-negative integer, or `"uid:unknown"` on any
failure; on Windows it returns `"sid:"` followed by a matched `S-1-`
token, or `"sid:unknown"`, only when the `whoami /user` invocation
succeeds — when that invocation itself fails, the failure is
propagated to the caller. -/
theorem account_id_fallback_policy (env : Env) :
    (pyStartsWith env.platform "win" = false →
      ∃ s, _get_account_id env = Except.ok s ∧
        (s = "uid:unknown" ∨ ∃ n : Nat, s = "uid:" ++ toString n)) ∧
    (∀ out, pyStartsWith env.platform "win" = true →
      env.whoamiOutput = Except.ok out →
      ∃ s, _get_account_id env = Except.ok s ∧
        (s = "sid:unknown" ∨ ∃ t, s = "sid:" ++ t ∧ pyStartsWith t "S-1-" = true)) ∧
    (∀ e, pyStartsWith env.platform "win" = true →
      env.whoamiOutput = Except.error e →
      _get_account_id env = Except.error e) := by
  refine ⟨?_, ?_, ?_⟩
  · intro hplat
    cases hg : env.getuid with
    | ok n =>
      refine ⟨"uid:" ++ toString n, ?_, Or.inr ⟨n, rfl⟩⟩
      simp [_get_account_id, hplat, hg]
    | error e =>
      refine ⟨"uid:unknown", ?_, Or.inl rfl⟩
      simp [_get_account_id, hplat, hg]
  · intro out hplat hw
    cases hfind : ((pySplitlines out).map pyStrip).find? (fun l => pyStartsWith l "S-1-") with
    | some line =>
      have hline : pyStartsWith line "S-1-" = true := by
        have := List.find?_some hfind
        simpa using this
      refine ⟨"sid:" ++ line, ?_, Or.inr ⟨line, rfl, hline⟩⟩
      simp [_get_account_id, hplat, hw, hfind]
    | none =>
      cases hlast :
          ((pySplitWhitespace out).filter (fun p => pyStartsWith p "S-1-")).getLast? with
      | some p =>
        have hpmem := List.mem_of_getLast?_eq_some hlast
        have hps := (List.mem_filter.mp hpmem).2
        refine ⟨"sid:" ++ p, ?_, Or.inr ⟨p, rfl, hps⟩⟩
        simp [_get_account_id, hplat, hw, hfind, hlast]
      | none =>
        refine ⟨"sid:unknown", ?_, Or.inl rfl⟩
        simp [_get_account_id, hplat, hw, hfind, hlast]
  · intro e hplat hw
    simp [_get_account_id, hplat, hw]

/-- C3 witness: the POSIX clause applied in the Linux environment. -/
theorem account_id_fallback_policy_witness :
    pyStartsWith envPosix.platform "win" = false ∧
      (∃ s, _get_account_id envPosix = Except.ok s ∧
        (s = "uid:unknown" ∨ ∃ n : Nat, s = "uid:" ++ toString n)) :=
  ⟨by decide, (account_id_fallback_policy envPosix).1 (by decide)⟩

/-- C4: for the input 0 (`not scan_code` is true exactly for the zero
scan code), the translator raises the InvalidInput `ValueError` and
never returns a value, in every environment. -/
theorem translate_zero_scan_invalid_input (env : Env) :
    map_scancode_to_char env 0 = Except.error (PyError.valueError "Scan code needed") := rfl

/-- C4 witness: the zero-scan-code failure evaluated in the benign
environment. -/
theorem translate_zero_scan_invalid_input_witness :
    map_scancode_to_char envGood 0 = Except.error (PyError.valueError "Scan code needed") :=
  translate_zero_scan_invalid_input envGood

theorem darwin_device_id_tagged (env : Env) (out : String) :
    darwinDeviceId env out ≠ "" ∧
      devicePrefixes.countP (fun p => pyStartsWith (darwinDeviceId env out) p) = 1 := by
  cases hfind :
      (pySplitlines out).find? (fun line => hasSubstr line.data ioPlatformKey.data) with
  | none =>
    simp only [darwinDeviceId, hfind]
    exact device_tag_fbmac (toString env.getnode)
  | some line =>
    simp only [darwinDeviceId, hfind]
    split
    · exact device_tag_mac _
    · exact device_tag_fbmac (toString env.getnode)

/-- C5: in every environment `_get_device_id` returns a non-empty
string beginning with exactly one of the prefixes "win:", "linux:",
"mac:", "fb_mac:"; every platform branch absorbs its own failure into
the network-hardware-address fallback, so the function is total. -/
theorem device_id_tagged_nonempty (env : Env) :
    _get_device_id env ≠ "" ∧
      devicePrefixes.countP (fun p => pyStartsWith (_get_device_id env) p) = 1 := by
  unfold _get_device_id
  split
  · cases env.machineGuid with
    | ok v => exact device_tag_win v
    | error e => exact device_tag_fbmac _
  · split
    · cases env.etcMachineId with
      | ok c => exact device_tag_linux _
      | error e =>
        cases env.dbusMachineId with
        | ok c => exact device_tag_linux _
        | error e2 => exact device_tag_fbmac _
    · split
      · cases env.ioregOutput with
        | error e => exact device_tag_fbmac (toString env.getnode)
        | ok out => exact darwin_device_id_tagged env out
      · exact device_tag_fbmac (toString env.getnode)

/-- C5 witness: the tagging property evaluated in the benign (Windows)
environment. -/
theorem device_id_tagged_nonempty_witness :
    _get_device_id envGood ≠ "" ∧
      devicePrefixes.countP (fun p => pyStartsWith (_get_device_id envGood) p) = 1 :=
  device_id_tagged_nonempty envGood

/-- C6: `get_language` is claimed never to throw and to return the
"LANGID_0x" + 4-hex-digit diagnostic whenever a stage fails (its own
docstring says "In all cases we return a fallback like LANGID_0x0000",
listing the layoutless-thread case). On the code, when there is no
foreground window and the thread's layout handle is NULL, ctypes yields
`None` and `hkl & 0xFFFF` raises `TypeError`. -/
theorem get_language_null_layout_raises :
    get_language envNullLayout = Except.error PyError.typeError := rfl

/-- C7: for a non-zero scan code under a focused window with readable
modifier state: if both virtual-key mappings (layout-aware, then the
layout-agnostic retry) yield zero the translator returns the empty
string; otherwise a positive composition result returns the produced
code units and a zero or negative (dead-key) result returns the empty
string, in every case without error. -/
theorem translate_algorithm_cases (env : Env) (sc : Int) (hsc : sc ≠ 0)
    (hfw : env.foregroundWindow ≠ 0) (hks : env.keyboardStateOk = true) :
    (env.mapVkEx = 0 → env.mapVk = 0 → map_scancode_to_char env sc = Except.ok "") ∧
    ((env.mapVkEx ≠ 0 ∨ env.mapVk ≠ 0) → 0 < env.toUnicodeRes →
      map_scancode_to_char env sc = Except.ok (bufValue env)) ∧
    ((env.mapVkEx ≠ 0 ∨ env.mapVk ≠ 0) → env.toUnicodeRes ≤ 0 →
      map_scancode_to_char env sc = Except.ok "") := by
  have hks' : ¬ env.keyboardStateOk = false := by simp [hks]
  refine ⟨?_, ?_, ?_⟩
  · intro h1 h2
    have hvk : resolveVk env = 0 := by simp [resolveVk, h1, h2]
    simp [map_scancode_to_char, hsc, hfw, hvk]
  · intro hvk hres
    have hv : ¬ resolveVk env = 0 := by
      unfold resolveVk
      split
      · next hx => exact hx
      · next hx =>
        rcases hvk with h | h
        · exact absurd h hx
        · exact h
    simp [map_scancode_to_char, hsc, hfw, hv, hks', hres]
  · intro hvk hres
    have hv : ¬ resolveVk env = 0 := by
      unfold resolveVk
      split
      · next hx => exact hx
      · next hx =>
        rcases hvk with h | h
        · exact absurd h hx
        · exact h
    have hres' : ¬ env.toUnicodeRes > 0 := not_lt.mpr hres
    simp [map_scancode_to_char, hsc, hfw, hv, hks', hres']

/-- C7 witness: the three clauses applied at scan code 30 in the benign
environment. -/
theorem translate_algorithm_cases_witness :
    (envGood.mapVkEx = 0 → envGood.mapVk = 0 →
      map_scancode_to_char envGood 30 = Except.ok "") ∧
    ((envGood.mapVkEx ≠ 0 ∨ envGood.mapVk ≠ 0) → 0 < envGood.toUnicodeRes →
      map_scancode_to_char envGood 30 = Except.ok (bufValue envGood)) ∧
    ((envGood.mapVkEx ≠ 0 ∨ envGood.mapVk ≠ 0) → envGood.toUnicodeRes ≤ 0 →
      map_scancode_to_char envGood 30 = Except.ok "") :=
  translate_algorithm_cases envGood 30 (by decide) (by decide) rfl

/-- C8: `get_process_name` closes every process handle it opened on
every exit path, and returns the sentinel `"unknown.exe"` whenever the
foreground window is missing, `OpenProcess` fails, or the image-path
query fails. -/
theorem process_name_releases_handles_and_falls_back (env : Env) :
    (get_process_name env).closed = (get_process_name env).opened ∧
      ((env.foregroundWindow = 0 ∨ env.openProcess = none ∨ env.queryImageOk = false) →
        (get_process_name env).name = "unknown.exe") := by
  by_cases hfw : env.foregroundWindow = 0
  · exact ⟨by simp [get_process_name, hfw], fun _ => by simp [get_process_name, hfw]⟩
  · cases hop : env.openProcess with
    | none =>
      exact ⟨by simp [get_process_name, hfw, hop], fun _ => by simp [get_process_name, hfw, hop]⟩
    | some hp =>
      cases hq : env.queryImageOk
      · exact ⟨by simp [get_process_name, hfw, hop], fun _ => by
          simp [get_process_name, hfw, hop, hq]⟩
      · refine ⟨by simp [get_process_name, hfw, hop], ?_⟩
        rintro (h | h | h)
        · exact absurd h hfw
        · exact Option.noConfusion h
        · exact Bool.noConfusion h

/-- C8 witness: the fallback clause applied in the no-focus
environment. -/
theorem process_name_releases_handles_and_falls_back_witness :
    (envNoFocus.foregroundWindow = 0 ∨ envNoFocus.openProcess = none ∨
        envNoFocus.queryImageOk = false) ∧
      (get_process_name envNoFocus).name = "unknown.exe" :=
  ⟨Or.inl rfl, (process_name_releases_handles_and_falls_back envNoFocus).2 (Or.inl rfl)⟩

/-- C9: constructing the identity snapshot twice in the same
environment yields identical `device_id` and `account_id`: resolution
is a pure function of the OS environment (every consulted facility,
including the process-lifetime-cached `uuid.getnode()`, is a fixed
field of `Env`), and the produced record is immutable. -/
theorem snapshot_idempotent (env : Env) (s1 s2 : SystemInfo)
    (h1 : mkSystemInfo env = Except.ok s1) (h2 : mkSystemInfo env = Except.ok s2) :
    s1.device_id = s2.device_id ∧ s1.account_id = s2.account_id := by
  rw [h1] at h2
  injection h2 with h
  rw [h]
  exact ⟨rfl, rfl⟩

/-- C9 witness: two constructions in the Linux environment both produce
`snapPosix`. -/
theorem snapshot_idempotent_witness :
    snapPosix.device_id = snapPosix.device_id ∧
      snapPosix.account_id = snapPosix.account_id :=
  snapshot_idempotent envPosix snapPosix snapPosix rfl rfl

/-- C10: every string the translator returns holds at most 8 UTF-16
code units, because `ToUnicodeEx` writes into the fixed 8-unit
`create_unicode_buffer(8)` and `buf.value` reads only that buffer. -/
theorem translate_at_most_eight_units (env : Env) (sc : Int) (s : String)
    (h : map_scancode_to_char env sc = Except.ok s) : s.length ≤ 8 := by
  have hb : (bufValue env).length ≤ 8 := by
    unfold bufValue
    rw [String.length_mk]
    exact Nat.le_trans (length_takeWhile_le _ _) (List.length_take_le 8 env.composition)
  unfold map_scancode_to_char at h
  split at h
  · exact absurd h (by simp)
  · split at h
    · exact absurd h (by simp)
    · split at h
      · injection h with h'
        subst h'
        decide
      · split at h
        · exact absurd h (by simp)
        · split at h
          · injection h with h'
            subst h'
            exact hb
          · injection h with h'
            subst h'
            decide

/-- C10 witness: the bound applied to the concrete translation result
"a". -/
theorem translate_at_most_eight_units_witness :
    map_scancode_to_char envGood 30 = Except.ok "a" ∧ ("a" : String).length ≤ 8 :=
  ⟨rfl, translate_at_most_eight_units envGood 30 "a" rfl⟩

end KeystrokeAuth
